import Mathlib

set_option maxRecDepth 16384

/-!
Verification of the decap_oauth OAuth relay. The repository holds two library
variants of the same two-route service:

* the environment-configurable variant (src/src/lib.rs, binary
  src/src/bin/decap_oauth.rs), configured through OAUTH_* variables, whose
  rendered callback page checks the message origin against OAUTH_ORIGINS;
* the GitHub-only variant (src/lib/src/lib.rs, binary src/bin/src/main.rs),
  configured through CLIENT_ID/SECRET, whose rendered page posts to any
  message origin.

Handlers are embedded as pure functions. The process environment and the
request query string are partial maps; a per-request panic (expect/unwrap
in the source) is modelled as the result `none`; the token-exchange network
call is a function argument of the callback handler.
-/

namespace Decap

/-- An environment: the process environment, as read by std::env::var. -/
abbrev Env := String → Option String

/-- Query parameters of a request, as looked up in the axum Query hash map. -/
abbrev Params := String → Option String

/-- A raw HTTP header value: a sequence of bytes. -/
abbrev HeaderBytes := List Nat

/-- Whether a byte is visible ASCII or tab: the condition under which the http
crate's HeaderValue::to_str succeeds on that byte. -/
def isVisibleAscii (b : Nat) : Bool := (32 ≤ b && b < 127) || b == 9

/-- Model of HeaderValue::to_str: some string exactly when every byte of the
header value is visible ASCII, none otherwise (the Err case). -/
def headerToStr (hv : HeaderBytes) : Option String :=
  if hv.all isVisibleAscii then some (String.mk (hv.map Char.ofNat)) else none

/-- Simplified model of url::Url::parse succeeding on the absolute http(s) URLs
this program builds: the string carries an explicit http or https scheme. A
string with no scheme at all (a bare word) fails to parse in the url crate. -/
def urlParseOk (s : String) : Bool :=
  List.isPrefixOf "http://".data s.data || List.isPrefixOf "https://".data s.data

/-- Model of the oauth2 crate's BasicClient: endpoint URLs, credentials and the
optional redirect URI. -/
structure BasicClient where
  clientId : String
  clientSecret : String
  authUrl : String
  tokenUrl : String
  redirectUri : Option String
deriving DecidableEq

/-- Modelled from the spec: the authorize URL composed by the oauth2 crate
(dependency code, not under src/) "with: client id, redirect_uri, scope, state,
and response_type=code" (spec section 4.2 step 8), kept structured so that its
components can be inspected. -/
structure AuthorizeUrl where
  base : String
  clientId : String
  redirectUri : Option String
  scope : String
  state : String
  responseType : String
deriving DecidableEq

/-- Model of client.authorize_url(state).add_scope(scope).url(). -/
def authorizeUrl (client : BasicClient) (scope state : String) : AuthorizeUrl :=
  ⟨client.authUrl, client.clientId, client.redirectUri, scope, state, "code"⟩

/-- An HTTP response as produced by the handlers: a plain (status, text) pair,
a redirect carrying a Location, or a (status, Html body) pair. -/
inductive Response where
  | plain (status : Nat) (body : String)
  | redirect (status : Nat) (location : AuthorizeUrl)
  | html (status : Nat) (body : String)
deriving DecidableEq

/-- Modelled from the spec: axum's Redirect::to (dependency code, not under
src/); the spec (section 4.2 step 9) specifies "302 Found with Location set to
the composed authorize URL". -/
def redirectTo (u : AuthorizeUrl) : Response := .redirect 302 u

/-- The text body of a response (empty for a redirect, whose body the handlers
never fill). -/
def Response.bodyText : Response → String
  | .plain _ b => b
  | .redirect _ _ => ""
  | .html _ b => b

/-- The code-for-token exchange client.exchange_code(code).request(http_client):
the one network call, modelled as a function argument of the callback handler.
It receives the client and the code and returns either the stringified provider
error (the Err case) or the access token string. -/
abbrev Exchange := BasicClient → String → Except String String

/-- JavaScript e.origin.match(entry) as used by the rendered script: a regex
search of the configured entry in the event origin, which for entries free of
regex metacharacters is substring containment. -/
def jsMatch (origin pat : String) : Bool := decide (pat.data <:+: origin.data)

/-- JavaScript String.prototype.split(',') over the characters of a string:
the empty string yields [""], a trailing comma yields a final "". -/
def splitCommaAux : List Char → List Char → List String
  | [], acc => [String.mk acc.reverse]
  | c :: cs, acc =>
    if c = ',' then String.mk acc.reverse :: splitCommaAux cs []
    else splitCommaAux cs (c :: acc)

/-- JavaScript split(',') on a string. -/
def splitComma (s : String) : List String := splitCommaAux s.data []

/-- The token-carrying message posted by both variants' rendered scripts,
authorization:provider:status:JSON with the token and provider embedded. -/
def authorizationMessage (provider status token : String) : String :=
  "authorization:" ++ provider ++ ":" ++ status ++
    ":\x7b\"token\":\"" ++ token ++ "\",\"provider\":\"" ++ provider ++ "\"\x7d"

/-- The handshake message both rendered pages post on load, with its wildcard
target: ("authorizing:provider", "*"). -/
def onLoadMessage (provider : String) : String × String :=
  ("authorizing:" ++ provider, "*")

/-- A message handler dispatches only to event origins that match some entry of
the allowed list (under the script's own matching relation jsMatch). -/
def dispatchOnlyOnAllowed (recv : String → Option (String × String))
    (allowed : List String) : Prop :=
  ∀ e, (recv e).isSome = true → allowed.any (fun o => jsMatch e o) = true

namespace EnvVariant

/-- Default provider hostname (src/src/lib.rs line 36). -/
def OAUTH_HOSTNAME : String := "https://github.com"

/-- Default token path (line 37). -/
def OAUTH_TOKEN_PATH : String := "/login/oauth/access_token"

/-- Default authorize path (line 38). -/
def OAUTH_AUTHORIZE_PATH : String := "/login/oauth/authorize"

/-- Default provider name (line 39). -/
def OAUTH_PROVIDER : String := "github"

/-- Default scopes (line 40). -/
def OAUTH_SCOPES : String := "repo"

/-- get_var: env::var(var).expect(...); none models the panic. -/
def get_var (env : Env) (var : String) : Option String := env var

/-- get_var_or: env::var(var).unwrap_or(default). -/
def get_var_or (env : Env) (var : String) (dflt : String) : String :=
  (env var).getD dflt

/-- create_client (src/src/lib.rs lines 50-67): reads the credentials and the
endpoint configuration from the environment on every call; none models the
expect panics (a missing required variable, or an unparsable URL). -/
def create_client (env : Env) (redirect_url : String) : Option BasicClient :=
  match get_var env "OAUTH_CLIENT_ID" with
  | none => none
  | some client_id =>
    match get_var env "OAUTH_SECRET" with
    | none => none
    | some secret =>
      let hostname := get_var_or env "OAUTH_HOSTNAME" OAUTH_HOSTNAME
      let token_path := get_var_or env "OAUTH_TOKEN_PATH" OAUTH_TOKEN_PATH
      let auth_path := get_var_or env "OAUTH_AUTHORIZE_PATH" OAUTH_AUTHORIZE_PATH
      if urlParseOk (hostname ++ auth_path) && urlParseOk (hostname ++ token_path)
          && urlParseOk redirect_url then
        some ⟨client_id, secret, hostname ++ auth_path, hostname ++ token_path,
          some redirect_url⟩
      else none

/-- The /auth handler (src/src/lib.rs lines 70-113). `state` stands for the
random CsrfToken handed to authorize_url. The result none models a panic. -/
def auth (env : Env) (state : String) (params : Params)
    (host_header : Option HeaderBytes) : Option Response :=
  let expected_provider := get_var_or env "OAUTH_PROVIDER" OAUTH_PROVIDER
  let provider? : Except Response String :=
    match params "provider" with
    | some provider => .ok provider
    | none =>
      match env "OAUTH_PROVIDER" with
      | some var => .ok var
      | none => .error (.plain 400 "No provider specified")
  match provider? with
  | .error r => some r
  | .ok provider =>
    if provider ≠ expected_provider then
      some (.plain 400 ("Unexpected provider `" ++ provider ++ "`"))
    else
      let scope : String :=
        match params "scope" with
        | some scope => scope
        | none => get_var_or env "OAUTH_SCOPES" OAUTH_SCOPES
      match host_header with
      | none => some (.plain 400 "No host header")
      | some hv =>
        match headerToStr hv with
        | none => none
        | some host =>
          let redirect_url := "https://" ++ host ++ "/callback?provider=" ++ provider
          match create_client env redirect_url with
          | none => none
          | some client => some (redirectTo (authorizeUrl client scope state))

/-- The rendered page up to the interpolated OAUTH_ORIGINS value
(src/src/lib.rs lines 119-124). -/
def pageHead : String :=
  "\n    <script>\n      const receiveMessage = (e) => \x7b\n        let matches = false;\n\n        for(const origin of '"

/-- The rendered page between the origins value and the authorization message
(lines 124-136). -/
def pageMid : String :=
  "'.split(',')) \x7b\n          if (e.origin.match(origin)) \x7b\n              matches = true;\n              break;\n          \x7d\n        \x7d\n\n        if (!matches) \x7b\n          return;\n        \x7d\n\n        window.opener.postMessage(\n          '"

/-- The rendered page between the authorization message and the authorizing
handshake (lines 136-144). -/
def pageMid2 : String :=
  "',\n          e.origin\n        );\n\n        window.removeEventListener('message', receiveMessage, false);\n      \x7d\n      window.addEventListener('message', receiveMessage, false);\n\n      window.opener.postMessage('authorizing:"

/-- The tail of the rendered page (lines 144-146). -/
def pageTail : String := "', '*');\n    </script>\n    "

/-- The HTML text rendered by login_response for the given origins, provider,
status and token: the format string of src/src/lib.rs lines 118-153 with every
value embedded verbatim (no escaping or encoding). -/
def loginResponseHtml (origins provider status token : String) : String :=
  pageHead ++ origins ++ pageMid ++ authorizationMessage provider status token ++
    pageMid2 ++ provider ++ pageTail

/-- login_response (src/src/lib.rs lines 115-154): reads OAUTH_ORIGINS via
get_var (none models the expect panic) and renders the page. -/
def login_response (env : Env) (provider status token : String) : Option String :=
  match get_var env "OAUTH_ORIGINS" with
  | none => none
  | some origins => some (loginResponseHtml origins provider status token)

/-- The /callback handler (src/src/lib.rs lines 157-197). -/
def callback (env : Env) (params : Params) (host_header : Option HeaderBytes)
    (exchange : Exchange) : Option Response :=
  let provider? : Except Response String :=
    match params "provider" with
    | some provider => .ok provider
    | none =>
      match env "OAUTH_PROVIDER" with
      | some var => .ok var
      | none => .error (.plain 400 "No provider specified")
  match provider? with
  | .error r => some r
  | .ok provider =>
    match params "code" with
    | none => some (.plain 400 "Code is required")
    | some code =>
      match host_header with
      | none => some (.plain 400 "No host header")
      | some hv =>
        match headerToStr hv with
        | none => none
        | some host =>
          let redirect_url := "https://" ++ host ++ "/callback?provider=" ++ provider
          match create_client env redirect_url with
          | none => none
          | some client =>
            match exchange client code with
            | .ok token =>
              match login_response env provider "success" token with
              | none => none
              | some page => some (.html 200 page)
            | .error e => some (.plain 500 e)

/-- Whether some entry of the comma-split origins value matches the event
origin: the rendered script's for-loop over the origins value split at commas
(JavaScript split(',')), testing e.origin.match(origin) for each entry. -/
def originAnyMatch (origins eventOrigin : String) : Bool :=
  (splitComma origins).any (fun o => jsMatch eventOrigin o)

/-- Semantics of the rendered script's receiveMessage handler on one message
event with the given origin: some (message, target) when it posts to
window.opener, none when it silently returns. -/
def receiveMessage (origins provider status token : String)
    (eventOrigin : String) : Option (String × String) :=
  if originAnyMatch origins eventOrigin then
    some (authorizationMessage provider status token, eventOrigin)
  else none

/-- The posts produced over a sequence of message events: after a post the
listener is removed (no further posts); an ignored event leaves the listener
registered for the following events. -/
def runListener (origins provider status token : String) :
    List String → List (String × String)
  | [] => []
  | e :: es =>
    match receiveMessage origins provider status token e with
    | some m => [m]
    | none => runListener origins provider status token es

/-- The presence checks of src/src/bin/decap_oauth.rs main (check_var): the
process starts only when OAUTH_CLIENT_ID, OAUTH_SECRET and OAUTH_ORIGINS are
all defined; nothing else about the configuration is validated at startup. -/
def startupOk (env : Env) : Bool :=
  (env "OAUTH_CLIENT_ID").isSome && (env "OAUTH_SECRET").isSome &&
    (env "OAUTH_ORIGINS").isSome

end EnvVariant

namespace LibVariant

/-- Fixed provider hostname (src/lib/src/lib.rs line 18). -/
def TOKEN_HOST : String := "https://github.com"

/-- Fixed token path (line 19). -/
def TOKEN_PATH : String := "/login/oauth/access_token"

/-- Fixed authorize path (line 20). -/
def AUTH_PATH : String := "/login/oauth/authorize"

/-- create_client (src/lib/src/lib.rs lines 22-36): reads CLIENT_ID and SECRET
on every call (none models the expect panics); the endpoint URLs are constants
and no redirect URI is set here. -/
def create_client (env : Env) : Option BasicClient :=
  match env "CLIENT_ID" with
  | none => none
  | some client_id =>
    match env "SECRET" with
    | none => none
    | some secret =>
      if urlParseOk (TOKEN_HOST ++ AUTH_PATH) && urlParseOk (TOKEN_HOST ++ TOKEN_PATH) then
        some ⟨client_id, secret, TOKEN_HOST ++ AUTH_PATH, TOKEN_HOST ++ TOKEN_PATH, none⟩
      else none

/-- Debug formatting of a string value, format!("Invalid provider {:?}", p):
the value between double quotes (escaping of special characters inside the
value is not modelled; no claim depends on that body text). -/
def debugQuote (s : String) : String := "\"" ++ s ++ "\""

/-- The /auth handler (src/lib/src/lib.rs lines 39-76). -/
def auth (env : Env) (state : String) (params : Params)
    (host_header : Option HeaderBytes) : Option Response :=
  match params "provider" with
  | none => some (.plain 400 "No provider specified")
  | some provider =>
    if provider ≠ "github" then
      some (.plain 400 ("Invalid provider " ++ debugQuote provider))
    else
      let scope : String :=
        match params "scope" with
        | some scope => scope
        | none => "repo"
      match host_header with
      | none => some (.plain 400 "No host header")
      | some hv =>
        match headerToStr hv with
        | none => none
        | some host =>
          let redirect_url := "https://" ++ host ++ "/callback?provider=" ++ provider
          match create_client env with
          | none => none
          | some client =>
            if urlParseOk redirect_url then
              some (redirectTo (authorizeUrl
                ⟨client.clientId, client.clientSecret, client.authUrl,
                  client.tokenUrl, some redirect_url⟩ scope state))
            else none

/-- The rendered page up to the authorization message (src/lib/src/lib.rs
lines 80-84). -/
def libPageHead : String :=
  "\n    <script>\n      const receiveMessage = (message) => \x7b\n        window.opener.postMessage(\n          '"

/-- The rendered page between the authorization message and the authorizing
handshake (lines 84-92). -/
def libPageMid : String :=
  "',\n          message.origin\n        );\n\n        window.removeEventListener(\"message\", receiveMessage, false);\n      \x7d\n      window.addEventListener(\"message\", receiveMessage, false);\n\n      window.opener.postMessage(\"authorizing:"

/-- The tail of the rendered page (lines 92-94). -/
def libPageTail : String := "\", \"*\");\n    </script>\n    "

/-- The HTML text rendered by login_response (src/lib/src/lib.rs lines 78-101):
every value embedded verbatim; no origin list is read or embedded, and the
script posts to message.origin with no check. -/
def loginResponseHtml (provider status token : String) : String :=
  libPageHead ++ authorizationMessage provider status token ++ libPageMid ++
    provider ++ libPageTail

/-- The /callback handler (src/lib/src/lib.rs lines 104-135): it takes no
HeaderMap, so the request's Host header plays no part, and no redirect URI is
bound to the exchange. -/
def callback (env : Env) (params : Params) (exchange : Exchange) : Option Response :=
  match params "provider" with
  | none => some (.plain 400 "No provider specified")
  | some provider =>
    if provider ≠ "github" then
      some (.plain 400 ("Invalid provider " ++ debugQuote provider))
    else
      match params "code" with
      | none => some (.plain 400 "Code is required")
      | some code =>
        match create_client env with
        | none => none
        | some client =>
          match exchange client code with
          | .ok token => some (.html 200 (loginResponseHtml provider "success" token))
          | .error e => some (.plain 500 e)

/-- Semantics of this variant's receiveMessage handler: it posts the
authorization message to the event's origin unconditionally, whatever that
origin is (the script contains no origin check). -/
def receiveMessage (provider status token : String) (eventOrigin : String) :
    Option (String × String) :=
  some (authorizationMessage provider status token, eventOrigin)

/-- The posts produced by this variant's page over a sequence of message
events: after a post the listener is removed
(window.removeEventListener in the script), so later events produce nothing;
since the handler posts on every event, the first event receives the only
post. -/
def runListener (provider status token : String) :
    List String → List (String × String)
  | [] => []
  | e :: es =>
    match receiveMessage provider status token e with
    | some m => [m]
    | none => runListener provider status token es

/-- The presence checks of src/bin/src/main.rs main: CLIENT_ID, SECRET and
ORIGIN must be defined at startup (ORIGIN is never read by the handlers). -/
def startupOk (env : Env) : Bool :=
  (env "CLIENT_ID").isSome && (env "SECRET").isSome && (env "ORIGIN").isSome

end LibVariant

/-- An environment or parameter map given by an association list. -/
def envOf (l : List (String × String)) : Env := fun v =>
  (l.find? (fun p => p.1 == v)).map (fun p => p.2)

/-- Header bytes of an ASCII string. -/
def hostBytesOf (s : String) : HeaderBytes := s.data.map Char.toNat

/-- A concrete environment for the environment-configurable variant: the three
variables its binary requires, nothing else. -/
def envFull : Env := envOf [("OAUTH_CLIENT_ID", "id123"), ("OAUTH_SECRET", "sek"),
  ("OAUTH_ORIGINS", "example.com")]

/-- envFull with OAUTH_PROVIDER also set. -/
def envFullP : Env := envOf [("OAUTH_CLIENT_ID", "id123"), ("OAUTH_SECRET", "sek"),
  ("OAUTH_ORIGINS", "example.com"), ("OAUTH_PROVIDER", "github")]

/-- envFull with an OAUTH_HOSTNAME that is not a parsable URL; the startup
checks of the binary do not look at OAUTH_HOSTNAME at all. -/
def envBadHost : Env := envOf [("OAUTH_CLIENT_ID", "id123"), ("OAUTH_SECRET", "sek"),
  ("OAUTH_ORIGINS", "example.com"), ("OAUTH_HOSTNAME", "garbage")]

/-- A concrete environment for the GitHub-only variant. -/
def envLib : Env := envOf [("CLIENT_ID", "id123"), ("SECRET", "sek"),
  ("ORIGIN", "example.com")]

/-- Query string provider=github. -/
def paramsAuth : Params := envOf [("provider", "github")]

/-- An empty query string. -/
def paramsNone : Params := envOf []

/-- Query string provider=github&code=codeX. -/
def paramsCb : Params := envOf [("provider", "github"), ("code", "codeX")]

/-- Query string provider=gitlab&code=codeX. -/
def paramsGitlab : Params := envOf [("provider", "gitlab"), ("code", "codeX")]

/-- The Host header example.com as bytes. -/
def hostEx : HeaderBytes := hostBytesOf "example.com"

/-- A stubbed provider echoing a fixed access token for any code. -/
def exchOk (token : String) : Exchange := fun _ _ => .ok token

/-- A stubbed provider failing every exchange with a fixed error text. -/
def exchErr (e : String) : Exchange := fun _ _ => .error e

/-- A probe exchange that reports, as its error text, the redirect URI of the
client it was invoked with: it observes which redirect URI the callback
handler binds to the exchange. -/
def exchProbe : Exchange := fun c _ => .error ((c.redirectUri).getD "(no redirect uri)")

/-- The default authorize endpoint parses as a URL. -/
theorem urlDefaultAuthOk :
    urlParseOk (EnvVariant.OAUTH_HOSTNAME ++ EnvVariant.OAUTH_AUTHORIZE_PATH) = true := by
  decide

/-- The default token endpoint parses as a URL. -/
theorem urlDefaultTokenOk :
    urlParseOk (EnvVariant.OAUTH_HOSTNAME ++ EnvVariant.OAUTH_TOKEN_PATH) = true := by
  decide

/-- The GitHub-only variant's fixed authorize endpoint parses as a URL. -/
theorem urlLibAuthOk : urlParseOk (LibVariant.TOKEN_HOST ++ LibVariant.AUTH_PATH) = true := by
  decide

/-- The GitHub-only variant's fixed token endpoint parses as a URL. -/
theorem urlLibTokenOk : urlParseOk (LibVariant.TOKEN_HOST ++ LibVariant.TOKEN_PATH) = true := by
  decide

/-- C2 (amended): a /auth request with no provider query parameter is answered
400 "No provider specified" by the GitHub-only variant always, and by the
environment-configurable variant exactly when the OAUTH_PROVIDER environment
variable is also unset; when OAUTH_PROVIDER is set its value is taken as the
provider instead (see the counterexample). -/
theorem c2_no_provider (envA envB : Env) (st stB : String) (params paramsB : Params)
    (hh hhB : Option HeaderBytes)
    (hp : params "provider" = none) (he : envA "OAUTH_PROVIDER" = none)
    (hpB : paramsB "provider" = none) :
    EnvVariant.auth envA st params hh = some (.plain 400 "No provider specified") ∧
    LibVariant.auth envB stB paramsB hhB = some (.plain 400 "No provider specified") := by
  constructor
  · simp [EnvVariant.auth, hp, he]
  · simp [LibVariant.auth, hpB]

/-- C2 witness: the amended theorem applied to a concrete empty environment
and query string. -/
theorem c2_no_provider_witness :
    envOf [] "provider" = none ∧ envOf [] "OAUTH_PROVIDER" = none ∧
    EnvVariant.auth (envOf []) "st" (envOf []) none =
      some (.plain 400 "No provider specified") ∧
    LibVariant.auth (envOf []) "st" (envOf []) none =
      some (.plain 400 "No provider specified") := by
  refine ⟨rfl, rfl, ?_, ?_⟩
  · exact (c2_no_provider (envOf []) (envOf []) "st" "st" (envOf []) (envOf [])
      none none rfl rfl rfl).1
  · exact (c2_no_provider (envOf []) (envOf []) "st" "st" (envOf []) (envOf [])
      none none rfl rfl rfl).2

/-- C2 counterexample: in the environment-configurable variant with
OAUTH_PROVIDER=github set, a /auth request with no provider query parameter is
answered with the authorize redirect, not with 400 "No provider specified". -/
theorem c2_counterexample :
    EnvVariant.auth envFullP "st" paramsNone (some hostEx) ≠
      some (.plain 400 "No provider specified") ∧
    EnvVariant.auth envFullP "st" paramsNone (some hostEx) =
      some (redirectTo ⟨"https://github.com" ++ "/login/oauth/authorize", "id123",
        some "https://example.com/callback?provider=github", "repo", "st", "code"⟩) := by
  constructor
  · decide
  · decide

/-- C9: a Host header containing byte 255 (outside visible ASCII) makes the
/auth and /callback handlers of the environment-configurable variant panic
(the result none models the to_str unwrap panic) instead of returning any HTTP
response; the GitHub-only variant's /auth handler panics on it likewise. -/
theorem c9_host_unwrap_panic :
    headerToStr [255] = none ∧
    EnvVariant.auth envFull "st" paramsAuth (some [255]) = none ∧
    EnvVariant.callback envFull paramsCb (some [255]) (exchOk "tok") = none ∧
    LibVariant.auth envLib "st" paramsAuth (some [255]) = none := by
  refine ⟨?_, ?_, ?_, ?_⟩ <;> decide

/-- C8: on a /callback whose provider value differs from the configured
provider, the GitHub-only variant answers 400 on the mismatch while the
environment-configurable variant performs no mismatch check and proceeds to
the token exchange; at a common concrete request (provider=gitlab) the two
callback handlers return different responses, so they are not equivalent. -/
theorem c8_callback_provider_divergence :
    (∀ (env : Env) (params : Params) (exch : Exchange) (p : String),
      params "provider" = some p → p ≠ "github" →
      LibVariant.callback env params exch =
        some (.plain 400 ("Invalid provider " ++ LibVariant.debugQuote p))) ∧
    EnvVariant.callback envFull paramsGitlab (some hostEx) (exchOk "tok") =
      some (.html 200 (EnvVariant.loginResponseHtml "example.com" "gitlab" "success" "tok")) ∧
    LibVariant.callback envLib paramsGitlab (exchOk "tok") ≠
      EnvVariant.callback envFull paramsGitlab (some hostEx) (exchOk "tok") := by
  refine ⟨?_, by decide, by decide⟩
  intro env params exch p hp hne
  simp [LibVariant.callback, hp, hne]

/-- A list keeps being an infix after a whole segment is prepended. -/
theorem seg_skip {α : Type} (a : List α) {b m : List α} (h : b <:+: m) :
    b <:+: a ++ m := h.trans ( List.IsSuffix.isInfix (List.suffix_append a m))

/-- A list is an infix of itself followed by anything. -/
theorem seg_here {α : Type} (b m : List α) : b <:+: b ++ m :=
  List.IsPrefix.isInfix (List.prefix_append b m)

/-- C1 (amended): the environment-configurable variant's rendered page behaves
as claimed — its script dispatches the token payload only upon a message event
whose origin matches some entry of the comma-split allowed origins list; on no
match the event is silently ignored (no post, no error) and the listener
remains registered for the subsequent events — while the GitHub-only variant's
rendered page dispatches the payload to every message event's origin
unconditionally (see the counterexample). -/
theorem c1_origin_check (origins p s t eo : String) (es : List String) :
    (EnvVariant.originAnyMatch origins eo = false →
      EnvVariant.receiveMessage origins p s t eo = none) ∧
    (EnvVariant.originAnyMatch origins eo = false →
      EnvVariant.runListener origins p s t (eo :: es) =
        EnvVariant.runListener origins p s t es) ∧
    (EnvVariant.originAnyMatch origins eo = true →
      EnvVariant.receiveMessage origins p s t eo =
        some (authorizationMessage p s t, eo)) ∧
    LibVariant.receiveMessage p s t eo = some (authorizationMessage p s t, eo) := by
  refine ⟨?_, ?_, ?_, rfl⟩
  · intro h; simp [EnvVariant.receiveMessage, h]
  · intro h; simp [EnvVariant.runListener, EnvVariant.receiveMessage, h]
  · intro h; simp [EnvVariant.receiveMessage, h]

/-- C1 witness: the amended theorem at the spec's concrete example — allowed
origins "example.com", non-matching origin "evil.com" (ignored), matching
origin "https://example.com" (dispatched). -/
theorem c1_origin_check_witness :
    EnvVariant.originAnyMatch "example.com" "evil.com" = false ∧
    EnvVariant.receiveMessage "example.com" "github" "success" "tok" "evil.com" = none ∧
    EnvVariant.originAnyMatch "example.com" "https://example.com" = true ∧
    EnvVariant.receiveMessage "example.com" "github" "success" "tok"
      "https://example.com" =
      some (authorizationMessage "github" "success" "tok", "https://example.com") := by
  refine ⟨by decide, ?_, by decide, ?_⟩
  · exact (c1_origin_check "example.com" "github" "success" "tok" "evil.com" []).1
      (by decide)
  · exact (c1_origin_check "example.com" "github" "success" "tok"
      "https://example.com" []).2.2.1 (by decide)

/-- C1 counterexample: the GitHub-only variant's rendered success page is a
rendered callback success page whose script dispatches the token payload for
the event origin "evil.com", which matches no entry of the configured allowed
origins ["example.com"]: dispatch happens without any matching entry. -/
theorem c1_counterexample :
    ¬ dispatchOnlyOnAllowed (LibVariant.receiveMessage "github" "success" "tok")
      ["example.com"] := by
  intro h
  exact absurd (h "evil.com" (by decide)) (by decide)

/-- C5: on every successful exchange, in both variants, /callback returns 200
OK with the rendered page; over any sequence of message events the page's
script posts at most one message — the structured payload
authorization:provider:success:JSON, targeted at the receiving event's origin,
hence never at "*" when no browser event carries the literal origin "*" — and
posting removes the listener (the serviced event yields the only post); on
page load the page posts authorizing:provider with wildcard target "*". The
GitHub-only variant's success page only ever renders with provider github,
the sole provider its callback admits. -/
theorem c5_success_page (env envB : Env) (params paramsB : Params) (hv : HeaderBytes)
    (host p code codeB tok origins cid sec cidB secB : String)
    (hp : params "provider" = some p) (hcode : params "code" = some code)
    (hhost : headerToStr hv = some host)
    (hcid : env "OAUTH_CLIENT_ID" = some cid) (hsec : env "OAUTH_SECRET" = some sec)
    (hho : env "OAUTH_HOSTNAME" = none) (htp : env "OAUTH_TOKEN_PATH" = none)
    (hap : env "OAUTH_AUTHORIZE_PATH" = none)
    (hurl : urlParseOk ("https://" ++ host ++ "/callback?provider=" ++ p) = true)
    (horig : env "OAUTH_ORIGINS" = some origins)
    (hpB : paramsB "provider" = some "github") (hcodeB : paramsB "code" = some codeB)
    (hcidB : envB "CLIENT_ID" = some cidB) (hsecB : envB "SECRET" = some secB) :
    EnvVariant.callback env params (some hv) (exchOk tok) =
      some (.html 200 (EnvVariant.loginResponseHtml origins p "success" tok)) ∧
    (∀ es, (EnvVariant.runListener origins p "success" tok es).length ≤ 1) ∧
    (∀ eo m, EnvVariant.receiveMessage origins p "success" tok eo = some m →
      m = (authorizationMessage p "success" tok, eo)) ∧
    (∀ eo m, eo ≠ "*" →
      EnvVariant.receiveMessage origins p "success" tok eo = some m → m.2 ≠ "*") ∧
    (∀ eo es m, EnvVariant.receiveMessage origins p "success" tok eo = some m →
      EnvVariant.runListener origins p "success" tok (eo :: es) = [m]) ∧
    LibVariant.callback envB paramsB (exchOk tok) =
      some (.html 200 (LibVariant.loginResponseHtml "github" "success" tok)) ∧
    (∀ es, (LibVariant.runListener "github" "success" tok es).length ≤ 1) ∧
    (∀ eo m, LibVariant.receiveMessage "github" "success" tok eo = some m →
      m = (authorizationMessage "github" "success" tok, eo)) ∧
    (∀ eo m, eo ≠ "*" →
      LibVariant.receiveMessage "github" "success" tok eo = some m → m.2 ≠ "*") ∧
    (∀ eo es m, LibVariant.receiveMessage "github" "success" tok eo = some m →
      LibVariant.runListener "github" "success" tok (eo :: es) = [m]) ∧
    onLoadMessage p = ("authorizing:" ++ p, "*") ∧
    onLoadMessage "github" = ("authorizing:github", "*") := by
  refine ⟨?_, ?_, ?_, ?_, ?_, ?_, ?_, ?_, ?_, ?_, rfl, by decide⟩
  · simp [EnvVariant.callback, EnvVariant.create_client, EnvVariant.get_var,
      EnvVariant.get_var_or, EnvVariant.login_response, hp, hcode, hhost, hcid,
      hsec, hho, htp, hap, hurl, urlDefaultAuthOk, urlDefaultTokenOk, horig, exchOk]
  · intro es
    induction es with
    | nil => simp [EnvVariant.runListener]
    | cons e es ih =>
      cases h : EnvVariant.receiveMessage origins p "success" tok e with
      | none => simpa [EnvVariant.runListener, h] using ih
      | some m => simp [EnvVariant.runListener, h]
  · intro eo m h
    unfold EnvVariant.receiveMessage at h
    split at h
    · injection h with h2; exact h2.symm
    · exact Option.noConfusion h
  · intro eo m hne h
    unfold EnvVariant.receiveMessage at h
    split at h
    · injection h with h2; rw [← h2]; exact hne
    · exact Option.noConfusion h
  · intro eo es m h
    simp [EnvVariant.runListener, h]
  · simp [LibVariant.callback, LibVariant.create_client, hpB, hcodeB, hcidB, hsecB,
      urlLibAuthOk, urlLibTokenOk, exchOk]
  · intro es
    cases es with
    | nil => simp [LibVariant.runListener]
    | cons e es => simp [LibVariant.runListener, LibVariant.receiveMessage]
  · intro eo m h
    unfold LibVariant.receiveMessage at h
    injection h with h2
    exact h2.symm
  · intro eo m hne h
    unfold LibVariant.receiveMessage at h
    injection h with h2
    rw [← h2]
    exact hne
  · intro eo es m h
    simp [LibVariant.runListener, h]

/-- C5 witness: the theorem at a concrete request against each variant, and
each page's listener run over a concrete event sequence — on the
environment-configurable page the non-matching event is skipped and the
matching one receives the single post; on the GitHub-only page the first
event receives the single post; later events are not served. -/
theorem c5_success_page_witness :
    paramsCb "provider" = some "github" ∧ paramsCb "code" = some "codeX" ∧
    EnvVariant.callback envFull paramsCb (some hostEx) (exchOk "tok") =
      some (.html 200
        (EnvVariant.loginResponseHtml "example.com" "github" "success" "tok")) ∧
    EnvVariant.runListener "example.com" "github" "success" "tok"
      ["evil.com", "https://example.com", "https://example.com/second"] =
      [(authorizationMessage "github" "success" "tok", "https://example.com")] ∧
    LibVariant.callback envLib paramsCb (exchOk "tok") =
      some (.html 200 (LibVariant.loginResponseHtml "github" "success" "tok")) ∧
    LibVariant.runListener "github" "success" "tok"
      ["https://example.com", "evil.com"] =
      [(authorizationMessage "github" "success" "tok", "https://example.com")] ∧
    onLoadMessage "github" = ("authorizing:github", "*") := by
  have h := c5_success_page envFull envLib paramsCb paramsCb hostEx "example.com"
    "github" "codeX" "codeX" "tok" "example.com" "id123" "sek" "id123" "sek"
    rfl rfl (by decide) rfl rfl rfl rfl rfl (by decide) rfl rfl rfl rfl rfl
  refine ⟨rfl, rfl, h.1, by decide, h.2.2.2.2.2.1, by decide, by decide⟩

/-- C4: when the code-for-token exchange fails with provider error text e,
both variants answer 500 Internal Server Error with exactly the stringified
provider error as body; the body being exactly that error string, any string
absent from the provider error — in particular the client secret and any
access token — is absent from the body. -/
theorem c4_exchange_failure (env envB : Env) (params paramsB : Params)
    (hv : HeaderBytes) (host p code codeB cid sec cidB secB e : String)
    (hp : params "provider" = some p) (hcode : params "code" = some code)
    (hhost : headerToStr hv = some host)
    (hcid : env "OAUTH_CLIENT_ID" = some cid) (hsec : env "OAUTH_SECRET" = some sec)
    (hho : env "OAUTH_HOSTNAME" = none) (htp : env "OAUTH_TOKEN_PATH" = none)
    (hap : env "OAUTH_AUTHORIZE_PATH" = none)
    (hurl : urlParseOk ("https://" ++ host ++ "/callback?provider=" ++ p) = true)
    (hpB : paramsB "provider" = some "github") (hcodeB : paramsB "code" = some codeB)
    (hcidB : envB "CLIENT_ID" = some cidB) (hsecB : envB "SECRET" = some secB) :
    EnvVariant.callback env params (some hv) (exchErr e) = some (.plain 500 e) ∧
    LibVariant.callback envB paramsB (exchErr e) = some (.plain 500 e) ∧
    (∀ s : String, ¬ s.data <:+: e.data →
      ∀ r, EnvVariant.callback env params (some hv) (exchErr e) = some r →
        ¬ s.data <:+: (Response.bodyText r).data) := by
  have h1 : EnvVariant.callback env params (some hv) (exchErr e) =
      some (.plain 500 e) := by
    simp [EnvVariant.callback, EnvVariant.create_client, EnvVariant.get_var,
      EnvVariant.get_var_or, hp, hcode, hhost, hcid, hsec, hho, htp, hap, hurl,
      urlDefaultAuthOk, urlDefaultTokenOk, exchErr]
  have h2 : LibVariant.callback envB paramsB (exchErr e) = some (.plain 500 e) := by
    simp [LibVariant.callback, LibVariant.create_client, hpB, hcodeB, hcidB, hsecB,
      urlLibAuthOk, urlLibTokenOk, exchErr]
  refine ⟨h1, h2, ?_⟩
  intro s hs r hr
  rw [h1] at hr
  injection hr with hr
  subst hr
  exact hs

/-- C4 witness: the theorem applied at a concrete failing exchange (the
stubbed provider refuses every code with "provider refused"). -/
theorem c4_exchange_failure_witness :
    paramsCb "provider" = some "github" ∧ paramsCb "code" = some "codeX" ∧
    headerToStr hostEx = some "example.com" ∧
    EnvVariant.callback envFull paramsCb (some hostEx) (exchErr "provider refused") =
      some (.plain 500 "provider refused") ∧
    LibVariant.callback envLib paramsCb (exchErr "provider refused") =
      some (.plain 500 "provider refused") := by
  have h := c4_exchange_failure envFull envLib paramsCb paramsCb hostEx "example.com"
    "github" "codeX" "codeX" "id123" "sek" "id123" "sek" "provider refused"
    rfl rfl (by decide) rfl rfl rfl rfl rfl (by decide) rfl rfl rfl rfl
  exact ⟨rfl, rfl, by decide, h.1, h.2.1⟩

/-- C6 (amended): startup validates only the presence of OAUTH_CLIENT_ID,
OAUTH_SECRET and OAUTH_ORIGINS — a missing client id or secret is fatal at
startup — but the handlers re-read configuration on every request, so a
configuration problem the startup checks do not cover (an OAUTH_HOSTNAME that
is no parsable URL) passes startup and panics inside create_client on each
valid /auth request. -/
theorem c6_config_panics (env : Env) :
    (env "OAUTH_CLIENT_ID" = none → EnvVariant.startupOk env = false) ∧
    (env "OAUTH_SECRET" = none → EnvVariant.startupOk env = false) ∧
    EnvVariant.startupOk envBadHost = true ∧
    EnvVariant.auth envBadHost "st" paramsAuth (some hostEx) = none := by
  refine ⟨?_, ?_, by decide, by decide⟩
  · intro h; simp [EnvVariant.startupOk, h]
  · intro h; simp [EnvVariant.startupOk, h]

/-- C6 witness: the amended theorem applied to the empty environment (missing
client id is caught at startup) and, through its closed conjuncts, to the
concrete environment whose hostname is unparsable. -/
theorem c6_config_panics_witness :
    envOf [] "OAUTH_CLIENT_ID" = none ∧ EnvVariant.startupOk (envOf []) = false ∧
    EnvVariant.startupOk envBadHost = true ∧
    EnvVariant.auth envBadHost "st" paramsAuth (some hostEx) = none :=
  ⟨rfl, (c6_config_panics (envOf [])).1 rfl, (c6_config_panics (envOf [])).2.2.1,
    (c6_config_panics (envOf [])).2.2.2⟩

/-- C6 counterexample: a configuration problem does surface as a per-request
panic — envBadHost passes the startup presence checks, yet a valid /auth
request panics (none) because OAUTH_HOSTNAME="garbage" forms an unparsable
URL in create_client, refuting "ConfigurationError is fatal at startup only". -/
theorem c6_counterexample :
    EnvVariant.startupOk envBadHost = true ∧
    EnvVariant.auth envBadHost "st" paramsAuth (some hostEx) = none := by
  constructor <;> decide

/-- C7 (amended): the environment-configurable variant's /auth and /callback
and the GitHub-only variant's /auth answer 400 "No host header" when the Host
header is absent, and the environment-configurable /callback rebuilds the
identical redirect_uri https://host/callback?provider=provider and binds the
exchange to it (observed by a probe exchange reporting the redirect URI of the
client it receives); the GitHub-only variant's /callback, however, reads no
Host header at all (see the counterexample). -/
theorem c7_host_header (env : Env) (params : Params) (hv : HeaderBytes)
    (host p code cid sec : String)
    (hp : params "provider" = some p) (hcode : params "code" = some code)
    (hhost : headerToStr hv = some host)
    (hcid : env "OAUTH_CLIENT_ID" = some cid) (hsec : env "OAUTH_SECRET" = some sec)
    (hho : env "OAUTH_HOSTNAME" = none) (htp : env "OAUTH_TOKEN_PATH" = none)
    (hap : env "OAUTH_AUTHORIZE_PATH" = none)
    (hurl : urlParseOk ("https://" ++ host ++ "/callback?provider=" ++ p) = true) :
    (∀ (envA : Env) (paramsA : Params) (st pA : String),
      paramsA "provider" = some pA →
      pA = EnvVariant.get_var_or envA "OAUTH_PROVIDER" EnvVariant.OAUTH_PROVIDER →
      EnvVariant.auth envA st paramsA none = some (.plain 400 "No host header")) ∧
    (∀ (envA : Env) (paramsA : Params) (exch : Exchange) (pA codeA : String),
      paramsA "provider" = some pA → paramsA "code" = some codeA →
      EnvVariant.callback envA paramsA none exch = some (.plain 400 "No host header")) ∧
    (∀ (envB : Env) (paramsB : Params) (st : String),
      paramsB "provider" = some "github" →
      LibVariant.auth envB st paramsB none = some (.plain 400 "No host header")) ∧
    EnvVariant.callback env params (some hv) exchProbe =
      some (.plain 500 ("https://" ++ host ++ "/callback?provider=" ++ p)) := by
  refine ⟨?_, ?_, ?_, ?_⟩
  · intro envA paramsA st pA hpA hexp
    subst hexp
    simp [EnvVariant.auth, hpA]
  · intro envA paramsA exch pA codeA hpA hcodeA
    simp [EnvVariant.callback, hpA, hcodeA]
  · intro envB paramsB st hpB
    simp [LibVariant.auth, hpB]
  · simp [EnvVariant.callback, EnvVariant.create_client, EnvVariant.get_var,
      EnvVariant.get_var_or, hp, hcode, hhost, hcid, hsec, hho, htp, hap, hurl,
      urlDefaultAuthOk, urlDefaultTokenOk, exchProbe]

/-- C7 witness: the amended theorem applied to the concrete environment and
request, discharging each hypothesis there. -/
theorem c7_host_header_witness :
    paramsCb "provider" = some "github" ∧ paramsCb "code" = some "codeX" ∧
    EnvVariant.auth envFull "st" paramsCb none = some (.plain 400 "No host header") ∧
    EnvVariant.callback envFull paramsCb none (exchOk "tok") =
      some (.plain 400 "No host header") ∧
    LibVariant.auth envLib "st" paramsCb none = some (.plain 400 "No host header") ∧
    EnvVariant.callback envFull paramsCb (some hostEx) exchProbe =
      some (.plain 500 "https://example.com/callback?provider=github") := by
  have h := c7_host_header envFull paramsCb hostEx "example.com" "github" "codeX"
    "id123" "sek" rfl rfl (by decide) rfl rfl rfl rfl rfl (by decide)
  refine ⟨rfl, rfl, h.1 envFull paramsCb "st" "github" rfl rfl, ?_, ?_, ?_⟩
  · exact h.2.1 envFull paramsCb (exchOk "tok") "github" "codeX" rfl rfl
  · exact h.2.2.1 envLib paramsCb "st" rfl
  · exact h.2.2.2

/-- C7 counterexample: the GitHub-only variant's /callback takes no HeaderMap,
so a request lacking a Host header is not answered 400 "No host header" — with
a successful exchange it returns the 200 page — and no redirect URI is bound
to its exchange (the probe exchange reports that the client carries none). -/
theorem c7_counterexample :
    LibVariant.callback envLib paramsCb (exchOk "tok") =
      some (.html 200 (LibVariant.loginResponseHtml "github" "success" "tok")) ∧
    LibVariant.callback envLib paramsCb exchProbe =
      some (.plain 500 "(no redirect uri)") := by
  constructor <;> decide

/-- C3: a valid /auth request — provider present and equal to the configured
provider, Host header present and readable — is answered with the redirect
(302, modelled from the spec for axum's Redirect::to) whose Location carries
the configured client id, a redirect_uri equal to
https://host/callback?provider=provider, and the effective scope — the scope
query parameter when present, the configured default scope otherwise — in
both variants. -/
theorem c3_auth_redirect (env envB : Env) (st stB : String) (params paramsB : Params)
    (hv hvB : HeaderBytes) (host hostB p scopeEff scopeEffB cid sec cidB secB : String)
    (hp : params "provider" = some p)
    (hexp : p = EnvVariant.get_var_or env "OAUTH_PROVIDER" EnvVariant.OAUTH_PROVIDER)
    (hhost : headerToStr hv = some host)
    (hcid : env "OAUTH_CLIENT_ID" = some cid) (hsec : env "OAUTH_SECRET" = some sec)
    (hho : env "OAUTH_HOSTNAME" = none) (htp : env "OAUTH_TOKEN_PATH" = none)
    (hap : env "OAUTH_AUTHORIZE_PATH" = none)
    (hurl : urlParseOk ("https://" ++ host ++ "/callback?provider=" ++ p) = true)
    (hscope : scopeEff = (match params "scope" with
      | some sc => sc
      | none => EnvVariant.get_var_or env "OAUTH_SCOPES" EnvVariant.OAUTH_SCOPES))
    (hpB : paramsB "provider" = some "github")
    (hhostB : headerToStr hvB = some hostB)
    (hcidB : envB "CLIENT_ID" = some cidB) (hsecB : envB "SECRET" = some secB)
    (hurlB : urlParseOk ("https://" ++ hostB ++ "/callback?provider=github") = true)
    (hscopeB : scopeEffB = (match paramsB "scope" with
      | some sc => sc
      | none => "repo")) :
    (∃ u : AuthorizeUrl,
      EnvVariant.auth env st params (some hv) = some (redirectTo u) ∧
      u.clientId = cid ∧
      u.redirectUri = some ("https://" ++ host ++ "/callback?provider=" ++ p) ∧
      u.scope = scopeEff ∧ u.state = st) ∧
    (∃ u : AuthorizeUrl,
      LibVariant.auth envB stB paramsB (some hvB) = some (redirectTo u) ∧
      u.clientId = cidB ∧
      u.redirectUri = some ("https://" ++ hostB ++ "/callback?provider=github") ∧
      u.scope = scopeEffB ∧ u.state = stB) := by
  have hho' : EnvVariant.get_var_or env "OAUTH_HOSTNAME" EnvVariant.OAUTH_HOSTNAME =
      EnvVariant.OAUTH_HOSTNAME := by simp [EnvVariant.get_var_or, hho]
  have htp' : EnvVariant.get_var_or env "OAUTH_TOKEN_PATH" EnvVariant.OAUTH_TOKEN_PATH =
      EnvVariant.OAUTH_TOKEN_PATH := by simp [EnvVariant.get_var_or, htp]
  have hap' : EnvVariant.get_var_or env "OAUTH_AUTHORIZE_PATH"
      EnvVariant.OAUTH_AUTHORIZE_PATH = EnvVariant.OAUTH_AUTHORIZE_PATH := by
    simp [EnvVariant.get_var_or, hap]
  constructor
  · subst hexp hscope
    refine ⟨authorizeUrl ⟨cid, sec,
        EnvVariant.OAUTH_HOSTNAME ++ EnvVariant.OAUTH_AUTHORIZE_PATH,
        EnvVariant.OAUTH_HOSTNAME ++ EnvVariant.OAUTH_TOKEN_PATH,
        some ("https://" ++ host ++ "/callback?provider=" ++
          EnvVariant.get_var_or env "OAUTH_PROVIDER" EnvVariant.OAUTH_PROVIDER)⟩
        (match params "scope" with
         | some sc => sc
         | none => EnvVariant.get_var_or env "OAUTH_SCOPES" EnvVariant.OAUTH_SCOPES)
        st, ?_, rfl, rfl, rfl, rfl⟩
    cases hsc : params "scope" with
    | none =>
      simp [EnvVariant.auth, EnvVariant.create_client, EnvVariant.get_var, hp, hsc,
        hhost, hcid, hsec, hho', htp', hap', hurl, urlDefaultAuthOk,
        urlDefaultTokenOk, authorizeUrl, redirectTo]
    | some sc =>
      simp [EnvVariant.auth, EnvVariant.create_client, EnvVariant.get_var, hp, hsc,
        hhost, hcid, hsec, hho', htp', hap', hurl, urlDefaultAuthOk,
        urlDefaultTokenOk, authorizeUrl, redirectTo]
  · subst hscopeB
    have heqB : ("https://" ++ hostB ++ "/callback?provider=" ++ "github") =
        ("https://" ++ hostB ++ "/callback?provider=github") := by
      apply String.ext
      simp [String.data_append]
    refine ⟨authorizeUrl ⟨cidB, secB,
        LibVariant.TOKEN_HOST ++ LibVariant.AUTH_PATH,
        LibVariant.TOKEN_HOST ++ LibVariant.TOKEN_PATH,
        some ("https://" ++ hostB ++ "/callback?provider=github")⟩
        (match paramsB "scope" with
         | some sc => sc
         | none => "repo")
        stB, ?_, rfl, rfl, rfl, rfl⟩
    cases hscB : paramsB "scope" with
    | none =>
      simp [LibVariant.auth, LibVariant.create_client, hpB, hscB, hhostB, hcidB,
        hsecB, heqB, hurlB, urlLibAuthOk, urlLibTokenOk, authorizeUrl, redirectTo]
    | some sc =>
      simp [LibVariant.auth, LibVariant.create_client, hpB, hscB, hhostB, hcidB,
        hsecB, heqB, hurlB, urlLibAuthOk, urlLibTokenOk, authorizeUrl, redirectTo]

/-- C3 witness: the theorem at a concrete valid request against each variant
(scope parameter absent, so the default scope repo is effective). -/
theorem c3_auth_redirect_witness :
    paramsAuth "provider" = some "github" ∧ headerToStr hostEx = some "example.com" ∧
    (∃ u : AuthorizeUrl,
      EnvVariant.auth envFull "st" paramsAuth (some hostEx) = some (redirectTo u) ∧
      u.clientId = "id123" ∧
      u.redirectUri = some "https://example.com/callback?provider=github" ∧
      u.scope = "repo" ∧ u.state = "st") ∧
    (∃ u : AuthorizeUrl,
      LibVariant.auth envLib "st" paramsAuth (some hostEx) = some (redirectTo u) ∧
      u.clientId = "id123" ∧
      u.redirectUri = some "https://example.com/callback?provider=github" ∧
      u.scope = "repo" ∧ u.state = "st") := by
  have h := c3_auth_redirect envFull envLib "st" "st" paramsAuth paramsAuth hostEx
    hostEx "example.com" "example.com" "github" "repo" "repo" "id123" "sek" "id123"
    "sek" rfl (by decide) (by decide) rfl rfl rfl rfl rfl (by decide) (by decide)
    rfl (by decide) rfl rfl (by decide) (by decide)
  have h1 := h.1
  have h2 := h.2
  refine ⟨rfl, by decide, ?_, ?_⟩
  · obtain ⟨u, hu, hc, hr, hs, hst⟩ := h1
    exact ⟨u, by simpa using hu, hc, by simpa using hr, hs, hst⟩
  · obtain ⟨u, hu, hc, hr, hs, hst⟩ := h2
    exact ⟨u, by simpa using hu, hc, by simpa using hr, hs, hst⟩

/-- C10: both rendered pages embed their arguments verbatim — origins,
provider, status and token are each a literal character-level substring of the
page, with no escaping or encoding — and the environment-configurable
variant's callback applies no validation to the provider query value, so an
arbitrary provider string appears verbatim inside the page's inline script on
a successful exchange. -/
theorem c10_verbatim_embedding (env : Env) (params : Params) (hv : HeaderBytes)
    (host p code tok origins cid sec : String)
    (hp : params "provider" = some p) (hcode : params "code" = some code)
    (hhost : headerToStr hv = some host)
    (hcid : env "OAUTH_CLIENT_ID" = some cid) (hsec : env "OAUTH_SECRET" = some sec)
    (hho : env "OAUTH_HOSTNAME" = none) (htp : env "OAUTH_TOKEN_PATH" = none)
    (hap : env "OAUTH_AUTHORIZE_PATH" = none)
    (hurl : urlParseOk ("https://" ++ host ++ "/callback?provider=" ++ p) = true)
    (horig : env "OAUTH_ORIGINS" = some origins) :
    (∀ og pr st tk : String,
      og.data <:+: (EnvVariant.loginResponseHtml og pr st tk).data ∧
      pr.data <:+: (EnvVariant.loginResponseHtml og pr st tk).data ∧
      st.data <:+: (EnvVariant.loginResponseHtml og pr st tk).data ∧
      tk.data <:+: (EnvVariant.loginResponseHtml og pr st tk).data) ∧
    (∀ pr st tk : String,
      pr.data <:+: (LibVariant.loginResponseHtml pr st tk).data ∧
      st.data <:+: (LibVariant.loginResponseHtml pr st tk).data ∧
      tk.data <:+: (LibVariant.loginResponseHtml pr st tk).data) ∧
    EnvVariant.callback env params (some hv) (exchOk tok) =
      some (.html 200 (EnvVariant.loginResponseHtml origins p "success" tok)) ∧
    p.data <:+: (EnvVariant.loginResponseHtml origins p "success" tok).data := by
  have henv : ∀ og pr st tk : String,
      og.data <:+: (EnvVariant.loginResponseHtml og pr st tk).data ∧
      pr.data <:+: (EnvVariant.loginResponseHtml og pr st tk).data ∧
      st.data <:+: (EnvVariant.loginResponseHtml og pr st tk).data ∧
      tk.data <:+: (EnvVariant.loginResponseHtml og pr st tk).data := by
    intro og pr st tk
    refine ⟨?_, ?_, ?_, ?_⟩ <;>
      simp only [EnvVariant.loginResponseHtml, authorizationMessage,
        String.data_append, List.append_assoc]
    · exact seg_skip _ (seg_here _ _)
    · exact seg_skip _ (seg_skip _ (seg_skip _ (seg_skip _ (seg_here _ _))))
    · exact seg_skip _ (seg_skip _ (seg_skip _ (seg_skip _ (seg_skip _
        (seg_skip _ (seg_here _ _))))))
    · exact seg_skip _ (seg_skip _ (seg_skip _ (seg_skip _ (seg_skip _
        (seg_skip _ (seg_skip _ (seg_skip _ (seg_here _ _))))))))
  refine ⟨henv, ?_, ?_, ?_⟩
  · intro pr st tk
    refine ⟨?_, ?_, ?_⟩ <;>
      simp only [LibVariant.loginResponseHtml, authorizationMessage,
        String.data_append, List.append_assoc]
    · exact seg_skip _ (seg_skip _ (seg_here _ _))
    · exact seg_skip _ (seg_skip _ (seg_skip _ (seg_skip _ (seg_here _ _))))
    · exact seg_skip _ (seg_skip _ (seg_skip _ (seg_skip _ (seg_skip _
        (seg_skip _ (seg_here _ _))))))
  · simp [EnvVariant.callback, EnvVariant.create_client, EnvVariant.get_var,
      EnvVariant.get_var_or, EnvVariant.login_response, hp, hcode, hhost, hcid,
      hsec, hho, htp, hap, hurl, urlDefaultAuthOk, urlDefaultTokenOk, horig, exchOk]
  · exact (henv origins p "success" tok).2.1

/-- C10 witness: the theorem at a concrete request whose provider query value
is an attacker-shaped script fragment; the fragment appears verbatim in the
returned page. -/
theorem c10_verbatim_embedding_witness :
    envOf [("provider", "</script><script>evil()</script>"), ("code", "codeX")]
        "provider" = some "</script><script>evil()</script>" ∧
    EnvVariant.callback envFull
      (envOf [("provider", "</script><script>evil()</script>"), ("code", "codeX")])
      (some hostEx) (exchOk "tok") =
      some (.html 200 (EnvVariant.loginResponseHtml "example.com"
        "</script><script>evil()</script>" "success" "tok")) ∧
    "</script><script>evil()</script>".data <:+:
      (EnvVariant.loginResponseHtml "example.com" "</script><script>evil()</script>"
        "success" "tok").data := by
  have h := c10_verbatim_embedding envFull
    (envOf [("provider", "</script><script>evil()</script>"), ("code", "codeX")])
    hostEx "example.com" "</script><script>evil()</script>" "codeX" "tok"
    "example.com" "id123" "sek" rfl rfl (by decide) rfl rfl rfl rfl rfl (by decide)
    rfl
  exact ⟨rfl, h.2.2.1, h.2.2.2⟩

/-- C8 witness: the GitHub-only variant's mismatch rejection at the concrete
request provider=gitlab. -/
theorem c8_callback_provider_divergence_witness :
    paramsGitlab "provider" = some "gitlab" ∧ "gitlab" ≠ "github" ∧
    LibVariant.callback envLib paramsGitlab (exchOk "tok") =
      some (.plain 400 ("Invalid provider " ++ LibVariant.debugQuote "gitlab")) := by
  refine ⟨rfl, by decide, ?_⟩
  exact c8_callback_provider_divergence.1 envLib paramsGitlab (exchOk "tok") "gitlab"
    rfl (by decide)

end Decap
